import Mathlib

/-!
Verification of the git-req remote-resolution and branch-checkout core.

The Rust sources are shallowly embedded as executable Lean definitions:
pure string manipulation becomes functions on `String` (implemented over
`String.data` so that every definition reduces in the kernel), the git
config store and the repository ref store become explicit state values
threaded through the operations, and subprocess/HTTP side effects become
an environment of response functions plus an explicit trace of the
commands and URLs issued, in order.
-/

namespace GitReq

/-! ## Character-list utilities

Rust string primitives (`split`, `replace`, `trim_start_matches`,
`trim_end_matches`) used by the sources, re-implemented structurally on
`List Char` so they compute by kernel reduction. -/

/-- Split a character list at every occurrence of `sep` (Rust `str::split`
with a `char` pattern: `"a/b"` gives `["a","b"]`, `"/a"` gives `["","a"]`,
`""` gives `[""]`). -/
def splitCharList (sep : Char) : List Char → List (List Char)
  | [] => [[]]
  | c :: cs =>
    if c = sep then [] :: splitCharList sep cs
    else
      match splitCharList sep cs with
      | [] => [[c]]
      | g :: gs => (c :: g) :: gs

/-- Rust `str::split` with a `char` pattern, on `String`. -/
def rustSplitChar (sep : Char) (s : String) : List String :=
  (splitCharList sep s.data).map String.mk

/-- Rust `str::replace` specialised to a single-character pattern
(the sources only call it as `full_path.replace("/", "%2F")`). -/
def replaceCharList (c : Char) (repl : List Char) : List Char → List Char
  | [] => []
  | d :: ds => if d = c then repl ++ replaceCharList c repl ds else d :: replaceCharList c repl ds

/-- Rust `str::replace` with a one-character pattern, on `String`. -/
def rustReplaceChar (c : Char) (repl : String) (s : String) : String :=
  ⟨replaceCharList c repl.data s.data⟩

/-- Rust `str::trim_start_matches` with a `char` pattern: drop every
leading occurrence of `c`. -/
def rustTrimStartChar (c : Char) (s : String) : String :=
  ⟨s.data.dropWhile (· = c)⟩

/-- Boolean list-of-characters comparison used below. -/
def isPrefixChars : List Char → List Char → Bool
  | [], _ => true
  | _ :: _, [] => false
  | a :: as, b :: bs => a = b && isPrefixChars as bs

/-- Repeatedly drop the pattern `p` from the front of `l` as long as it is
there (fuelled; the fuel `l.length` always suffices because each step
removes at least one character when `p` is nonempty). -/
def dropFrontRep (p : List Char) : Nat → List Char → List Char
  | 0, l => l
  | fuel + 1, l =>
    if p ≠ [] ∧ isPrefixChars p l then dropFrontRep p fuel (l.drop p.length) else l

/-- Rust `str::trim_end_matches` with a string pattern: repeatedly strip
the suffix `pat` (implemented by repeatedly dropping the reversed pattern
from the front of the reversed character list). -/
def rustTrimEndMatches (pat : String) (s : String) : String :=
  ⟨(dropFrontRep pat.data.reverse s.data.length s.data.reverse).reverse⟩

/-! ## Config Store Adapter (src/git.rs)

git's config store is modelled as a partial map from string keys to
string values; `set_str` overwrites and `remove` deletes. -/

/-- A namespaced string key-value store, the interface git2's `Config`
presents to the sources. -/
def Config : Type := String → Option String

/-- `Config::set_str`. -/
def cfgSet (k v : String) (cfg : Config) : Config :=
  fun k' => if k' = k then some v else cfg k'

/-- `Config::remove`. -/
def cfgRemove (k : String) (cfg : Config) : Config :=
  fun k' => if k' = k then none else cfg k'

/-- src/git.rs `migrate_legacy`: if the legacy unscoped key
`req.<field>` is present, write its value under `req.<remote>.<field>`
and remove the unscoped key; otherwise leave the store untouched. -/
def migrate_legacy (field_name remote_name : String) (cfg : Config) : Config :=
  match cfg ("req." ++ field_name) with
  | some value =>
      cfgRemove ("req." ++ field_name)
        (cfgSet ("req." ++ remote_name ++ "." ++ field_name) value cfg)
  | none => cfg

/-- src/git.rs `get_config`: migrate the legacy key (with the remote name
hardcoded to "origin" at the call site), then read
`req.<remote>.<field>`. Returns the value read and the store after the
migration side effect. -/
def get_config (field_name remote_name : String) (cfg : Config) :
    Option String × Config :=
  let cfg' := migrate_legacy field_name ("origin") cfg
  (cfg' ("req." ++ remote_name ++ "." ++ field_name), cfg')

/-- src/git.rs `set_config`: migrate the legacy key (remote name
hardcoded to "origin"), then set `req.<remote>.<field>`. -/
def set_config (field_name remote_name value : String) (cfg : Config) : Config :=
  cfgSet ("req." ++ remote_name ++ "." ++ field_name) value
    (migrate_legacy field_name ("origin") cfg)

/-- src/git.rs `delete_config`: migrate the legacy key (remote name
hardcoded to "origin"), then remove `req.<remote>.<field>`. -/
def delete_config (field_name remote_name : String) (cfg : Config) : Config :=
  cfgRemove ("req." ++ remote_name ++ "." ++ field_name)
    (migrate_legacy field_name ("origin") cfg)

/-- src/git.rs `get_project_config`: read the project-local unscoped key
`req.<field>` (no migration). -/
def get_project_config (field_name : String) (cfg : Config) : Option String :=
  cfg ("req." ++ field_name)

/-! ## History Tracker (src/git.rs)

The repository ref store holds blobs addressed by OID and two named
refs, `git-req/current` and `git-req/previous`, each pointing at a blob
whose content is an 8-byte little-endian signed integer. OIDs are
modelled as naturals handed out by a counter; a blob's byte content is
modelled as the natural number those 8 little-endian bytes denote. -/

/-- Repository-local ref/blob storage backing the history markers. -/
structure RefStore where
  blobs : List (Nat × Nat)
  next_oid : Nat
  current : Option Nat
  previous : Option Nat

/-- Rust `i64::to_le_bytes`: the 8-byte little-endian image of `n`, as
the natural number it denotes (two's complement wrap). -/
def i64_to_le_bytes (n : Int) : Nat := (n % (2 : Int) ^ 64).toNat

/-- Rust `i64::from_le_bytes` on an 8-byte value. -/
def i64_from_le_bytes (b : Nat) : Int :=
  if b < 2 ^ 63 then (b : Int) else (b : Int) - 2 ^ 64

/-- `Repository::blob`: store a blob, returning its fresh OID. -/
def repo_blob (s : RefStore) (data : Nat) : Nat × RefStore :=
  (s.next_oid,
   { s with blobs := (s.next_oid, data) :: s.blobs, next_oid := s.next_oid + 1 })

/-- src/git.rs `push_current_ref`: read the OID targeted by
`git-req/current` (if any), store the new number as a blob, repoint
`git-req/previous` at the old current OID when one existed, and repoint
`git-req/current` at the new blob. -/
def push_current_ref (new_req_number : Int) (s : RefStore) : RefStore :=
  let old_oid := s.current
  let (new_oid, s₁) := repo_blob s (i64_to_le_bytes new_req_number)
  let s₂ := match old_oid with
    | some oid => { s₁ with previous := some oid }
    | none => s₁
  { s₂ with current := some new_oid }

/-- Look up the content of the blob with the given OID. -/
def find_blob (s : RefStore) (oid : Nat) : Option Nat :=
  (s.blobs.find? (fun p => p.1 == oid)).map Prod.snd

/-- src/git.rs `get_previous_mr_id`: peel `git-req/previous` to its blob
and decode the 8 little-endian bytes; `none` models the error paths
(missing ref or blob). -/
def get_previous_mr_id (s : RefStore) : Option Int :=
  s.previous.bind (fun oid => (find_blob s oid).map i64_from_le_bytes)

/-- The same read-out for `git-req/current` (used to state rotation). -/
def get_current_mr_id (s : RefStore) : Option Int :=
  s.current.bind (fun oid => (find_blob s oid).map i64_from_le_bytes)

/-! ## Branch Checkout Engine (src/git.rs `checkout_branch`)

The parts of the world `checkout_branch` consults: the repository
config (for `req.defaultremote`), whether a name `revparse`s to an
existing local ref, the current HEAD, and the exit status of the git
subprocesses it spawns. Every spawned subprocess is recorded, as its
argument list, in an ordered trace. -/

/-- Environment of repository state and subprocess outcomes. -/
structure GitEnv where
  cfg : Config
  resolves : String → Bool
  head : Option (Bool × String)
  run : List String → Bool

/-- src/git.rs `CheckoutResult`. -/
inductive CheckoutResult where
  | BranchChanged
  | BranchUnchanged
deriving DecidableEq

/-- The local-branch-name computation at the top of `checkout_branch`:
with a configured `req.defaultremote` equal to the requested remote the
bare name is used; with a differing configured default the name is
prefixed `req/<remote>/`; with no configured default (a warning is
logged and) the name is prefixed `<remote>/`. -/
def resolve_local_branch_name (env : GitEnv) (remote_name local_branch_name : String) :
    String :=
  match get_project_config ("defaultremote") env.cfg with
  | some default_remote_name =>
      if remote_name ≠ default_remote_name then
        "req/" ++ remote_name ++ "/" ++ local_branch_name
      else local_branch_name
  | none => remote_name ++ "/" ++ local_branch_name

/-- src/git.rs `checkout_branch`. Returns the result (or error message)
together with the ordered argument lists of the git subprocesses run. -/
def checkout_branch (env : GitEnv)
    (remote_name remote_branch_name local_branch_name : String)
    (is_virtual_remote_branch : Bool) :
    Except String CheckoutResult × List (List String) :=
  let lbn := resolve_local_branch_name env remote_name local_branch_name
  if env.resolves lbn then
    match env.head with
    | none => (.error ("could not read HEAD"), [])
    | some (is_branch, head_name) =>
      if is_branch && (head_name == "refs/heads/" ++ lbn) then
        (.ok .BranchUnchanged, [])
      else
        let checkout_args := ["checkout", lbn]
        if env.run checkout_args then (.ok .BranchChanged, [checkout_args])
        else (.error ("Could not check out local branch"), [checkout_args])
  else
    let remote_to_local_binding := remote_branch_name ++ ":" ++ lbn
    let fetch_args :=
      ["fetch", remote_name,
       if is_virtual_remote_branch then remote_to_local_binding else remote_branch_name]
    if env.run fetch_args then
      let origin_with_remote := remote_name ++ "/" ++ remote_branch_name
      let checkout_args :=
        if is_virtual_remote_branch then ["checkout", lbn]
        else ["checkout", "-b", lbn, origin_with_remote]
      if env.run checkout_args then (.ok .BranchChanged, [fetch_args, checkout_args])
      else (.error ("Could not check out local branch"), [fetch_args, checkout_args])
    else
      (.error ("Could not fetch remote branch '" ++ remote_branch_name ++ "'"),
       [fetch_args])

/-! ## Provider clients (src/remotes/github.rs, src/remotes/gitlab.rs)

HTTP is modelled as a function from request URL to response. A response
carries ureq's `error()` flag, its status code, and its body: `none`
models a body `into_json` cannot read, and otherwise an `ApiBody`
constructor records which of the serde target shapes the JSON value
decodes into (`other` for a JSON value matching none of them, such as a
GitLab error document). Outcomes distinguish returned errors from
`expect`/`unwrap` aborts, and every function reports the ordered list
of URLs it requested. -/

/-- Deserialization target `GitLabProject` (src/remotes/gitlab.rs). -/
structure GitLabProject where
  id : Int
  description : Option String
  name : String
  path : String
  path_with_namespace : String
deriving DecidableEq

/-- Deserialization target `GitLabNamespace` (src/remotes/gitlab.rs). -/
structure GitLabNamespace where
  id : Int
  name : String
  path : String
  kind : String
  full_path : String
deriving DecidableEq

/-- Deserialization target `GitLabMergeRequest` (src/remotes/gitlab.rs). -/
structure GitLabMergeRequest where
  id : Int
  iid : Int
  title : String
  description : Option String
  target_branch : String
  source_branch : String
  sha : String
  web_url : String
deriving DecidableEq

/-- Which serde shape a response's JSON body decodes into. -/
inductive ApiBody where
  | project (p : GitLabProject)
  | ns (n : GitLabNamespace)
  | projects (ps : List GitLabProject)
  | mr (m : GitLabMergeRequest)
  | other
deriving DecidableEq

/-- A ureq response: the `error()` flag, the status code, and the body
(`none` when `into_json` fails to read it). -/
structure HttpResponse where
  error : Bool
  status : Nat
  body : Option ApiBody
deriving DecidableEq

/-- The network: responses keyed by request URL. -/
structure HttpEnv where
  call : String → HttpResponse

/-- Result of running a provider-client function: a returned value, a
returned error (an `anyhow` message in the sources), or a process abort
coming from an `expect`/`unwrap` on a decode. -/
inductive ApiOutcome (α : Type) where
  | ok (v : α)
  | err (msg : String)
  | aborted (msg : String)
deriving DecidableEq

/-- serde `from_value` into `GitLabProject`. -/
def decode_project : ApiBody → Option GitLabProject
  | .project p => some p
  | _ => none

/-- serde `from_value` into `GitLabNamespace`. -/
def decode_namespace : ApiBody → Option GitLabNamespace
  | .ns n => some n
  | _ => none

/-- serde `from_value` into `Vec<GitLabProject>`. -/
def decode_projects : ApiBody → Option (List GitLabProject)
  | .projects ps => some ps
  | _ => none

/-- serde `from_value` into `GitLabMergeRequest`. -/
def decode_merge_request : ApiBody → Option GitLabMergeRequest
  | .mr m => some m
  | _ => none

/-- The `GitLab` remote struct (src/remotes/gitlab.rs). -/
structure GitLabRemote where
  id : String
  domain : String
  name : String
  namespace' : String
  full_path : String
  origin : String
  api_root : String
  api_key : String

/-- src/remotes/gitlab.rs `query_gitlab_api`: perform the request and
classify by ureq's `error()` flag. -/
def query_gitlab_api (env : HttpEnv) (url : String) :
    Except HttpResponse HttpResponse :=
  let response := env.call url
  if response.error then .error response else .ok response

/-- src/remotes/gitlab.rs `search_gitlab_project_id`: look the namespace
up, list its projects (directly for a `user` namespace, via a
name-filtered search for a `group` namespace), and select the project
whose `name` equals the remote's locally derived name. -/
def search_gitlab_project_id (env : HttpEnv) (remote : GitLabRemote) :
    ApiOutcome Int × List String :=
  let ns_url := remote.api_root ++ "/namespaces/" ++ remote.namespace'
  match query_gitlab_api env ns_url with
  | .error response =>
      (if response.status = 404 then .err ("couldn't find namespace")
       else .err ("failed to read response"), [ns_url])
  | .ok response =>
    match response.body with
    | none => (.err ("malformed response received"), [ns_url])
    | some body =>
      match decode_namespace body with
      | none => (.aborted ("failed to decode response"), [ns_url])
      | some ns_buf =>
        let projects_url? : Option String :=
          if ns_buf.kind = "user" then
            some (remote.api_root ++ "/users/" ++ toString ns_buf.id ++ "/projects")
          else if ns_buf.kind = "group" then
            some (remote.api_root ++ "/groups/" ++ toString ns_buf.id ++
                  "/projects?search=" ++ remote.name)
          else none
        match projects_url? with
        | none => (.err ("Unknown namespace"), [ns_url])
        | some projects_url =>
          match query_gitlab_api env projects_url with
          | .error _ => (.err ("failed to read projects response"), [ns_url, projects_url])
          | .ok response₂ =>
            match response₂.body with
            | none => (.err ("malformed projects response"), [ns_url, projects_url])
            | some body₂ =>
              match decode_projects body₂ with
              | none => (.aborted ("failed to decode projects response"),
                         [ns_url, projects_url])
              | some projects =>
                match projects.find? (fun prj => prj.name == remote.name) with
                | some project => (.ok project.id, [ns_url, projects_url])
                | none => (.err ("Couldn't find project"), [ns_url, projects_url])

/-- The user-facing message `query_gitlab_project_id` returns when both
the direct lookup and the search strategy fail. -/
def unable_to_get_project_id_msg : String :=
  "Unable to get the project ID from the GitLab API.\nFind and configure " ++
  "your project ID using the instructions at: " ++
  "https://github.com/arusahni/git-req/wiki/Finding-Project-IDs"

/-- src/remotes/gitlab.rs `query_gitlab_project_id`: attempt the direct
lookup of `/projects/<url-encoded full path>`; on any error response
fall back to `search_gitlab_project_id`, collapsing a search error into
the fixed user-facing message. -/
def query_gitlab_project_id (env : HttpEnv) (remote : GitLabRemote) :
    ApiOutcome Int × List String :=
  let direct_url :=
    remote.api_root ++ "/projects/" ++ rustReplaceChar '/' ("%2F") remote.full_path
  match query_gitlab_api env direct_url with
  | .error _ =>
    (match search_gitlab_project_id env remote with
     | (.ok id, trace) => (.ok id, direct_url :: trace)
     | (.err _, trace) => (.err unable_to_get_project_id_msg, direct_url :: trace)
     | (.aborted msg, trace) => (.aborted msg, direct_url :: trace))
  | .ok response =>
    match response.body with
    | none => (.err ("failed to read response"), [direct_url])
    | some body =>
      match decode_project body with
      | none => (.aborted ("failed to decode response"), [direct_url])
      | some buf => (.ok buf.id, [direct_url])

/-- src/remotes/gitlab.rs `query_gitlab_branch_name`: request
`/projects/<id>/merge_requests/<mr_id>` directly with ureq (not through
`query_gitlab_api`) and read the body without ever consulting the
status code. -/
def query_gitlab_branch_name (env : HttpEnv) (remote : GitLabRemote) (mr_id : Int) :
    ApiOutcome String × List String :=
  let url := remote.api_root ++ "/projects/" ++ remote.id ++ "/merge_requests/" ++
             toString mr_id
  let resp := env.call url
  match resp.body with
  | none => (.err ("failed to read response"), [url])
  | some body =>
    match decode_merge_request body with
    | none => (.aborted ("failed to decode response"), [url])
    | some buf => (.ok buf.source_branch, [url])

/-- src/remotes/gitlab.rs `GitLab::get_local_req_branch`: delegates to
`get_remote_req_branch` (GitLab local names equal the remote source
branch names). -/
def gitlab_get_local_req_branch (env : HttpEnv) (remote : GitLabRemote) (mr_id : Int) :
    ApiOutcome String × List String :=
  query_gitlab_branch_name env remote mr_id

/-- src/remotes/github.rs `GitHub::get_local_req_branch`. -/
def github_get_local_req_branch (mr_id : Int) : String :=
  "pr/" ++ toString mr_id

/-- src/remotes/github.rs `GitHub::get_remote_req_branch`. -/
def github_get_remote_req_branch (mr_id : Int) : String :=
  "pull/" ++ toString mr_id ++ "/head"

/-- src/remotes/github.rs `GitHub::has_virtual_remote_branch_names`. -/
def github_has_virtual_remote_branch_names : Bool := true

/-- src/remotes/gitlab.rs `GitLab::has_virtual_remote_branch_names`. -/
def gitlab_has_virtual_remote_branch_names : Bool := false

/-! ## Remote Identity Resolver (src/remotes/gitlab.rs path extraction)

The gitlab.rs extractors delegate URL parsing to the external
`git_url_parse` crate. The crate is not part of this repository, so its
`GitUrl::parse` is modelled here from its documented behaviour — split
`scheme://[user@]host/path` and SCP-like `[user@]host:path` forms into a
host and a path, with `name` the final path segment minus any `.git`
suffix — exactly the behaviour the repository's own unit tests in
src/remotes/gitlab.rs pin down for these extractors. -/

/-- Split a character list at the first occurrence of `sep`. -/
def splitFirstChar (sep : Char) : List Char → Option (List Char × List Char)
  | [] => none
  | c :: cs =>
    if c = sep then some ([], cs)
    else (splitFirstChar sep cs).map (fun p => (c :: p.1, p.2))

/-- Drop everything up to and including the first `://` marker, if any. -/
def afterSchemeMarker : List Char → Option (List Char)
  | ':' :: '/' :: '/' :: rest => some rest
  | _ :: cs => afterSchemeMarker cs
  | [] => none

/-- Drop a leading `user@` authority component when the `@` occurs before
the first `/`. -/
def dropUserInfo (l : List Char) : List Char :=
  match splitFirstChar '@' l with
  | some (before, after) => if before.contains '/' then l else after
  | none => l

/-- The two `GitUrl` fields the sources consume. -/
structure GitUrlParsed where
  path : String
  name : String
deriving DecidableEq

/-- Rust `str::is_empty`. -/
def strIsEmpty (s : String) : Bool := s.data.isEmpty

/-- Rust `str::trim_end_matches(".git")` as used on the final path
segment to produce the repository name. -/
def trimGitSuffix (s : String) : String := rustTrimEndMatches (".git") s

/-- Assemble a `GitUrl` value from the extracted path characters. -/
def mkGitUrl (path : List Char) : Option GitUrlParsed :=
  match (splitCharList '/' path).getLast? with
  | some lastSeg => some ⟨⟨path⟩, trimGitSuffix ⟨lastSeg⟩⟩
  | none => none

/-- Modelled external dependency `git_url_parse::GitUrl::parse`
(behaviour pinned by the unit tests in src/remotes/gitlab.rs): URL-form
origins keep a leading `/` on the path, SCP-like origins do not. -/
def gitUrlParse (origin : String) : Option GitUrlParsed :=
  match afterSchemeMarker origin.data with
  | some rest =>
    match splitFirstChar '/' (dropUserInfo rest) with
    | some (_host, path) => mkGitUrl ('/' :: path)
    | none => none
  | none =>
    let rest := match splitFirstChar '@' origin.data with
      | some (_userinfo, after) => after
      | none => origin.data
    match splitFirstChar ':' rest with
    | some (_host, path) => mkGitUrl path
    | none => none

/-- src/remotes/gitlab.rs `get_gitlab_project_name`: the parsed `name`
field. -/
def get_gitlab_project_name (origin : String) : Option String :=
  (gitUrlParse origin).map (fun parsed => parsed.name)

/-- src/remotes/gitlab.rs `get_gitlab_project_namespace`: the first
nonempty segment of the parsed path split on `/` (the source `unwrap`s
the `find`; the model returns the `Inhabited` default when no segment is
nonempty). -/
def get_gitlab_project_namespace (origin : String) : Option String :=
  (gitUrlParse origin).map (fun parsed =>
    ((rustSplitChar '/' parsed.path).find? (fun s => !strIsEmpty s)).get!)

/-- src/remotes/gitlab.rs `get_gitlab_project_full_path`: the parsed
path with leading `/` characters and any trailing `.git` stripped. -/
def get_gitlab_project_full_path (origin : String) : Option String :=
  (gitUrlParse origin).map (fun parsed =>
    rustTrimEndMatches (".git") (rustTrimStartChar '/' parsed.path))

/-! ## Orchestrator (src/main.rs `checkout_mr`)

`checkout_mr` resolves branch names through the remote and calls
`checkout_branch`. It is modelled over an abstract remote (the two
branch-name operations plus the virtual-ref flag) and threads the
history `RefStore` through explicitly so that any history side effect
would be visible in the returned store. -/

/-- The slice of the `Remote` trait object `checkout_mr` consumes. -/
structure RemoteModel where
  get_remote_req_branch : Int → Except String String
  get_local_req_branch : Int → Except String String
  has_virtual_remote_branch_names : Bool

/-- Process-level outcome of `checkout_mr`: normal completion, an
`abort`/`process::exit(1)` with a message, or an `unwrap` abort. -/
inductive MainResult where
  | done (r : CheckoutResult)
  | exited (msg : String)
  | panicked (msg : String)
deriving DecidableEq

/-- src/main.rs `checkout_mr` (lines 49-75): get the remote branch name
(abort on failure), get the local branch name (`unwrap`), and call
`git::checkout_branch`; an error result prints and exits. No operation
on the history `RefStore` occurs on any path. -/
def checkout_mr (env : GitEnv) (refs : RefStore) (remote : RemoteModel)
    (remote_name : String) (mr_id : Int) :
    MainResult × List (List String) × RefStore :=
  match remote.get_remote_req_branch mr_id with
  | .error e =>
      (.exited ("There was a problem ascertaining the branch name: " ++ e), [], refs)
  | .ok remote_branch_name =>
    match remote.get_local_req_branch mr_id with
    | .error e => (.panicked e, [], refs)
    | .ok local_branch_name =>
      match checkout_branch env remote_name remote_branch_name local_branch_name
          remote.has_virtual_remote_branch_names with
      | (.ok r, cmds) => (.done r, cmds, refs)
      | (.error e, cmds) =>
          (.exited ("There was an error checking out the branch: " ++ e), cmds, refs)

/-- The `RemoteModel` slice of the GitHub variant. -/
def github_remote_model : RemoteModel where
  get_remote_req_branch := fun mr_id => .ok (github_get_remote_req_branch mr_id)
  get_local_req_branch := fun mr_id => .ok (github_get_local_req_branch mr_id)
  has_virtual_remote_branch_names := github_has_virtual_remote_branch_names

/-! ## Helper lemmas about config keys -/

/-- Two strings with equal character data are equal. -/
theorem string_data_inj {a b : String} (h : a.data = b.data) : a = b :=
  congrArg String.mk h

/-- The remote component of a scoped key `req.<remote>.<field>` is
recoverable: equal keys built from the same field name have equal remote
names. -/
theorem scoped_key_inj (r₁ r₂ f : String)
    (h : "req." ++ r₁ ++ "." ++ f = "req." ++ r₂ ++ "." ++ f) : r₁ = r₂ := by
  have hd : ("req." ++ r₁ ++ "." ++ f).data = ("req." ++ r₂ ++ "." ++ f).data :=
    congrArg String.data h
  simp only [String.data_append] at hd
  have h₁ : r₁.data = r₂.data := by simpa [List.append_assoc] using hd
  exact string_data_inj h₁

/-- A scoped key `req.<remote>.<field>` never coincides with the legacy
unscoped key `req.<field>` (their lengths differ). -/
theorem scoped_key_ne_legacy (r f : String) :
    "req." ++ r ++ "." ++ f ≠ "req." ++ f := by
  intro h
  have hd := congrArg String.data h
  simp only [String.data_append] at hd
  have hl := congrArg List.length hd
  simp [List.length_append] at hl
  omega

/-- C8 and C10 both look at stores holding a single legacy entry. -/
def legacy_cfg (field v : String) : Config :=
  fun k => if k = "req." ++ field then some v else none

/-- C8: legacy configuration migration moves a present unscoped
`req.<field>` value unchanged to the remote-scoped key and removes the
unscoped key, and running the migration a second time is a no-op. -/
theorem c8_migrate_legacy_idempotent (cfg : Config) (field remote v : String)
    (h : cfg ("req." ++ field) = some v) :
    migrate_legacy field remote cfg ("req." ++ remote ++ "." ++ field) = some v ∧
    migrate_legacy field remote cfg ("req." ++ field) = none ∧
    migrate_legacy field remote (migrate_legacy field remote cfg) =
      migrate_legacy field remote cfg := by
  have hne := scoped_key_ne_legacy remote field
  have h₁ : migrate_legacy field remote cfg ("req." ++ remote ++ "." ++ field) = some v := by
    simp [migrate_legacy, h, cfgRemove, cfgSet, hne]
  have h₂ : migrate_legacy field remote cfg ("req." ++ field) = none := by
    simp [migrate_legacy, h, cfgRemove, cfgSet]
  refine ⟨h₁, h₂, ?_⟩
  set m := migrate_legacy field remote cfg with hm
  unfold migrate_legacy
  rw [h₂]

/-- C8 witness: a store holding only `req.projectid = 42`, migrated for
remote `origin`. -/
theorem c8_migrate_legacy_idempotent_witness :
    migrate_legacy ("projectid") ("origin") (legacy_cfg ("projectid") ("42"))
        ("req." ++ "origin" ++ "." ++ "projectid") = some ("42") ∧
    migrate_legacy ("projectid") ("origin") (legacy_cfg ("projectid") ("42"))
        ("req." ++ "projectid") = none ∧
    migrate_legacy ("projectid") ("origin")
        (migrate_legacy ("projectid") ("origin") (legacy_cfg ("projectid") ("42"))) =
      migrate_legacy ("projectid") ("origin") (legacy_cfg ("projectid") ("42")) :=
  c8_migrate_legacy_idempotent (legacy_cfg ("projectid") ("42"))
    ("projectid") ("origin") ("42") (by decide)

/-- C10: the migration step invoked by `get_config`, `set_config` and
`delete_config` targets the fixed key `req.origin.<field>` — the remote
name "origin" is hardcoded — so for any active remote other than
"origin" a legacy unscoped value is never surfaced under that remote's
scoped key after migration. -/
theorem c10_migration_hardcoded_to_origin (cfg : Config) (field remote v w : String)
    (hleg : cfg ("req." ++ field) = some v)
    (hremote : remote ≠ "origin")
    (hscoped : cfg ("req." ++ remote ++ "." ++ field) = none) :
    (get_config field remote cfg).1 = none ∧
    (get_config field remote cfg).2 ("req.origin." ++ field) = some v ∧
    set_config field remote w cfg ("req.origin." ++ field) = some v ∧
    delete_config field remote cfg ("req.origin." ++ field) = some v ∧
    delete_config field remote cfg ("req." ++ field) = none := by
  have hOr : "req." ++ "origin" ++ "." ++ field = "req.origin." ++ field := rfl
  have hRneO : "req." ++ remote ++ "." ++ field ≠ "req.origin." ++ field := by
    rw [← hOr]
    intro h
    exact hremote (scoped_key_inj remote ("origin") field h)
  have hRneL : "req." ++ remote ++ "." ++ field ≠ "req." ++ field :=
    scoped_key_ne_legacy remote field
  have hOneL : "req.origin." ++ field ≠ "req." ++ field := by
    rw [← hOr]; exact scoped_key_ne_legacy ("origin") field
  have hmig : ∀ k, migrate_legacy field ("origin") cfg k =
      cfgRemove ("req." ++ field) (cfgSet ("req.origin." ++ field) v cfg) k := by
    intro k
    unfold migrate_legacy
    rw [hleg, hOr]
  refine ⟨?_, ?_, ?_, ?_, ?_⟩
  · show migrate_legacy field ("origin") cfg ("req." ++ remote ++ "." ++ field) = none
    rw [hmig]
    simp [cfgRemove, cfgSet, hRneL, hRneO, hscoped]
  · show migrate_legacy field ("origin") cfg ("req.origin." ++ field) = some v
    rw [hmig]
    simp [cfgRemove, cfgSet, hOneL]
  · show cfgSet ("req." ++ remote ++ "." ++ field) w
        (migrate_legacy field ("origin") cfg) ("req.origin." ++ field) = some v
    rw [cfgSet, if_neg (fun h => hRneO h.symm)]
    rw [hmig]
    simp [cfgRemove, cfgSet, hOneL]
  · show cfgRemove ("req." ++ remote ++ "." ++ field)
        (migrate_legacy field ("origin") cfg) ("req.origin." ++ field) = some v
    rw [cfgRemove, if_neg (fun h => hRneO h.symm)]
    rw [hmig]
    simp [cfgRemove, cfgSet, hOneL]
  · show cfgRemove ("req." ++ remote ++ "." ++ field)
        (migrate_legacy field ("origin") cfg) ("req." ++ field) = none
    rw [cfgRemove, if_neg (fun h => hRneL h.symm)]
    rw [hmig]
    simp [cfgRemove]

/-- C10 witness: a legacy `req.projectid` value migrated while the
active remote is `upstream`: the value lands under `req.origin.projectid`
and `get_config` for `upstream` does not surface it. -/
theorem c10_migration_hardcoded_to_origin_witness :
    (get_config ("projectid") ("upstream") (legacy_cfg ("projectid") ("42"))).1 = none ∧
    (get_config ("projectid") ("upstream") (legacy_cfg ("projectid") ("42"))).2
        ("req.origin." ++ "projectid") = some ("42") ∧
    set_config ("projectid") ("upstream") ("77") (legacy_cfg ("projectid") ("42"))
        ("req.origin." ++ "projectid") = some ("42") ∧
    delete_config ("projectid") ("upstream") (legacy_cfg ("projectid") ("42"))
        ("req.origin." ++ "projectid") = some ("42") ∧
    delete_config ("projectid") ("upstream") (legacy_cfg ("projectid") ("42"))
        ("req." ++ "projectid") = none :=
  c10_migration_hardcoded_to_origin (legacy_cfg ("projectid") ("42"))
    ("projectid") ("upstream") ("42") ("77") (by decide) (by decide) (by decide)

/-! ## History Tracker theorems -/

/-- Writing and re-reading the 8-byte little-endian payload is the
identity on the `i64` range. -/
theorem i64_le_bytes_roundtrip (n : Int) (h₁ : -(2 ^ 63) ≤ n) (h₂ : n < 2 ^ 63) :
    i64_from_le_bytes (i64_to_le_bytes n) = n := by
  unfold i64_to_le_bytes i64_from_le_bytes
  split <;> omega

/-- The empty repository ref store. -/
def refStore0 : RefStore where
  blobs := []
  next_oid := 0
  current := none
  previous := none

/-- C2: the request history is a 2-slot ring. `push_current_ref` copies
an existing `current` marker into `previous` before overwriting
`current`, and after recording three ids in sequence from any starting
store, `current` reads back as the third and `previous` as the second
(the first is no longer reachable from either marker). -/
theorem c2_history_rotation_two_slot_ring (s : RefStore) (a b c : Int)
    (hb₁ : -(2 ^ 63) ≤ b) (hb₂ : b < 2 ^ 63)
    (hc₁ : -(2 ^ 63) ≤ c) (hc₂ : c < 2 ^ 63) :
    (∀ oid, s.current = some oid → (push_current_ref a s).previous = some oid) ∧
    get_current_mr_id (push_current_ref c (push_current_ref b (push_current_ref a s))) =
      some c ∧
    get_previous_mr_id (push_current_ref c (push_current_ref b (push_current_ref a s))) =
      some b := by
  have hne : (s.next_oid + 2 == s.next_oid + 1) = false := by
    simp
  refine ⟨?_, ?_, ?_⟩
  · intro oid hoid
    cases hcur : s.current with
    | none => rw [hcur] at hoid; cases hoid
    | some o =>
      rw [hcur] at hoid
      cases hoid
      simp [push_current_ref, repo_blob, hcur]
  · cases hcur : s.current <;>
      simp [push_current_ref, repo_blob, get_current_mr_id, find_blob, hcur,
            i64_le_bytes_roundtrip c hc₁ hc₂]
  · cases hcur : s.current <;>
      simp [push_current_ref, repo_blob, get_previous_mr_id, find_blob, hcur, hne,
            i64_le_bytes_roundtrip b hb₁ hb₂]

/-- C2 witness: recording the ids 5, 7, 9 into an empty store leaves
`current = 9` and `previous = 7`. -/
theorem c2_history_rotation_two_slot_ring_witness :
    get_current_mr_id (push_current_ref 9 (push_current_ref 7 (push_current_ref 5 refStore0))) =
      some 9 ∧
    get_previous_mr_id (push_current_ref 9 (push_current_ref 7 (push_current_ref 5 refStore0))) =
      some 7 := by
  have h := c2_history_rotation_two_slot_ring refStore0 5 7 9
    (by decide) (by decide) (by decide) (by decide)
  exact ⟨h.2.1, h.2.2⟩

/-! ## Branch Checkout Engine theorems -/

/-- C3: when the resolved local branch name exists and equals the
currently checked-out branch, `checkout_branch` returns `Unchanged` and
spawns no git subprocess (no checkout, no fetch), and the orchestrator
run built on it leaves the history ref store untouched. -/
theorem c3_checkout_current_branch_is_unchanged_no_mutation (env : GitEnv)
    (remote_name remote_branch_name local_branch_name : String) (v : Bool)
    (hres : env.resolves (resolve_local_branch_name env remote_name local_branch_name) = true)
    (hhead : env.head =
      some (true, "refs/heads/" ++ resolve_local_branch_name env remote_name local_branch_name)) :
    checkout_branch env remote_name remote_branch_name local_branch_name v =
      (.ok .BranchUnchanged, []) ∧
    (∀ (refs : RefStore) (remote : RemoteModel) (mr_id : Int),
      remote.get_remote_req_branch mr_id = .ok remote_branch_name →
      remote.get_local_req_branch mr_id = .ok local_branch_name →
      remote.has_virtual_remote_branch_names = v →
      checkout_mr env refs remote remote_name mr_id = (.done .BranchUnchanged, [], refs)) := by
  have hcb : checkout_branch env remote_name remote_branch_name local_branch_name v =
      (.ok .BranchUnchanged, []) := by
    simp [checkout_branch, hres, hhead]
  refine ⟨hcb, ?_⟩
  intro refs remote mr_id h₁ h₂ h₃
  simp [checkout_mr, h₁, h₂, h₃, hcb]

/-- An environment in which every name resolves and HEAD sits on the
branch `origin/pr/1` (no default remote is configured). -/
def unchanged_env : GitEnv where
  cfg := fun _ => none
  resolves := fun _ => true
  head := some (true, "refs/heads/origin/pr/1")
  run := fun _ => true

/-- C3 witness: checking out request 1 of a virtual-ref remote while
already on `origin/pr/1` changes nothing and runs nothing. -/
theorem c3_checkout_current_branch_is_unchanged_no_mutation_witness :
    checkout_branch unchanged_env ("origin") ("pull/1/head") ("pr/1") true =
      (.ok .BranchUnchanged, []) ∧
    checkout_mr unchanged_env refStore0 github_remote_model ("origin") 1 =
      (.done .BranchUnchanged, [], refStore0) := by
  have h := c3_checkout_current_branch_is_unchanged_no_mutation unchanged_env
    ("origin") ("pull/1/head") ("pr/1") true (by decide) (by decide)
  exact ⟨h.1, h.2 refStore0 github_remote_model 1 rfl rfl rfl⟩

/-- C4: the local branch name used by `checkout_branch` is the bare name
when the configured `req.defaultremote` equals the active remote, the
`req/<remote>/<name>` form when a different default is configured, and
the `<remote>/<name>` form when no default is configured (the source
additionally logs a warning in that case); and the rest of the checkout
state machine depends on the configuration only through that resolved
name, so the three cases otherwise proceed identically. -/
theorem c4_local_branch_name_computation (env : GitEnv)
    (remote_name remote_branch_name local_branch_name : String) (v : Bool) :
    (get_project_config ("defaultremote") env.cfg = some remote_name →
      resolve_local_branch_name env remote_name local_branch_name = local_branch_name) ∧
    (∀ d, get_project_config ("defaultremote") env.cfg = some d → remote_name ≠ d →
      resolve_local_branch_name env remote_name local_branch_name =
        "req/" ++ remote_name ++ "/" ++ local_branch_name) ∧
    (get_project_config ("defaultremote") env.cfg = none →
      resolve_local_branch_name env remote_name local_branch_name =
        remote_name ++ "/" ++ local_branch_name) ∧
    (∀ env' : GitEnv, env'.resolves = env.resolves → env'.head = env.head →
      env'.run = env.run →
      resolve_local_branch_name env' remote_name local_branch_name =
        resolve_local_branch_name env remote_name local_branch_name →
      checkout_branch env' remote_name remote_branch_name local_branch_name v =
        checkout_branch env remote_name remote_branch_name local_branch_name v) := by
  refine ⟨?_, ?_, ?_, ?_⟩
  · intro h
    simp [resolve_local_branch_name, h]
  · intro d h hne
    simp [resolve_local_branch_name, h, hne]
  · intro h
    simp [resolve_local_branch_name, h]
  · intro env' hres hhead hrun hname
    simp only [checkout_branch, hres, hhead, hrun, hname]

/-- Environment with `req.defaultremote = origin` configured. -/
def default_origin_env : GitEnv where
  cfg := fun k => if k = "req.defaultremote" then some ("origin") else none
  resolves := fun _ => true
  head := some (true, "refs/heads/main")
  run := fun _ => true

/-- C4 witness: the three naming cases at concrete inputs. -/
theorem c4_local_branch_name_computation_witness :
    resolve_local_branch_name default_origin_env ("origin") ("pr/42") = "pr/42" ∧
    resolve_local_branch_name default_origin_env ("upstream") ("pr/42") =
      "req/" ++ "upstream" ++ "/" ++ "pr/42" ∧
    resolve_local_branch_name unchanged_env ("upstream") ("pr/42") =
      "upstream" ++ "/" ++ "pr/42" ∧
    checkout_branch default_origin_env ("origin") ("pull/42/head") ("pr/42") true =
      checkout_branch default_origin_env ("origin") ("pull/42/head") ("pr/42") true := by
  refine ⟨?_, ?_, ?_, ?_⟩
  · exact (c4_local_branch_name_computation default_origin_env ("origin")
      ("pull/42/head") ("pr/42") true).1 (by decide)
  · exact (c4_local_branch_name_computation default_origin_env ("upstream")
      ("pull/42/head") ("pr/42") true).2.1 ("origin") (by decide) (by decide)
  · exact (c4_local_branch_name_computation unchanged_env ("upstream")
      ("pull/42/head") ("pr/42") true).2.2.1 (by decide)
  · exact (c4_local_branch_name_computation default_origin_env ("origin")
      ("pull/42/head") ("pr/42") true).2.2.2 default_origin_env rfl rfl rfl rfl

/-- C5: the GitHub variant computes `pr/<n>` and `pull/<n>/head` as pure
functions of the id, and when no local ref exists, virtual-ref checkout
fetches with the refspec binding `pull/<n>/head:<local>` and then runs a
plain two-argument checkout of the local name — no `-b` tracking-branch
creation appears in the spawned commands. -/
theorem c5_github_virtual_ref_checkout (n : Int) (env : GitEnv) (remote_name : String)
    (hres : env.resolves
      (resolve_local_branch_name env remote_name (github_get_local_req_branch n)) = false)
    (hfetch : env.run ["fetch", remote_name,
      github_get_remote_req_branch n ++ ":" ++
        resolve_local_branch_name env remote_name (github_get_local_req_branch n)] = true)
    (hco : env.run ["checkout",
      resolve_local_branch_name env remote_name (github_get_local_req_branch n)] = true) :
    github_get_local_req_branch n = "pr/" ++ toString n ∧
    github_get_remote_req_branch n = "pull/" ++ toString n ++ "/head" ∧
    checkout_branch env remote_name (github_get_remote_req_branch n)
        (github_get_local_req_branch n) github_has_virtual_remote_branch_names =
      (.ok .BranchChanged,
       [["fetch", remote_name,
         github_get_remote_req_branch n ++ ":" ++
           resolve_local_branch_name env remote_name (github_get_local_req_branch n)],
        ["checkout",
         resolve_local_branch_name env remote_name (github_get_local_req_branch n)]]) := by
  refine ⟨rfl, rfl, ?_⟩
  simp [checkout_branch, github_has_virtual_remote_branch_names, hres, hfetch, hco]

/-- Environment in which no local ref exists and every subprocess
succeeds. -/
def fetch_env : GitEnv where
  cfg := fun k => if k = "req.defaultremote" then some ("origin") else none
  resolves := fun _ => false
  head := some (true, "refs/heads/main")
  run := fun _ => true

/-- C5 witness: request 42 against remote `origin` fetches
`pull/42/head:pr/42` and then checks out `pr/42` plainly. -/
theorem c5_github_virtual_ref_checkout_witness :
    github_get_local_req_branch 42 = "pr/" ++ toString (42 : Int) ∧
    github_get_remote_req_branch 42 = "pull/" ++ toString (42 : Int) ++ "/head" ∧
    checkout_branch fetch_env ("origin") (github_get_remote_req_branch 42)
        (github_get_local_req_branch 42) github_has_virtual_remote_branch_names =
      (.ok .BranchChanged,
       [["fetch", "origin",
         github_get_remote_req_branch 42 ++ ":" ++
           resolve_local_branch_name fetch_env ("origin") (github_get_local_req_branch 42)],
        ["checkout",
         resolve_local_branch_name fetch_env ("origin") (github_get_local_req_branch 42)]]) :=
  c5_github_virtual_ref_checkout 42 fetch_env ("origin") (by decide) (by decide) (by decide)

/-! ## Orchestrator theorems -/

/-- Environment for the C1 run: a default remote `origin` is configured,
the local branch `pr/42` already exists, HEAD is on `main`, and the
checkout subprocess succeeds. -/
def changed_env : GitEnv where
  cfg := fun k => if k = "req.defaultremote" then some ("origin") else none
  resolves := fun _ => true
  head := some (true, "refs/heads/main")
  run := fun _ => true

/-- C1: a `checkout_mr` invocation that terminates in the `Changed`
state performs no History Tracker rotation — contrary to the claim, the
history ref store is returned exactly as it was, with no `current`
marker recorded (and in general no `checkout_mr` path ever touches the
store, so the `Unchanged` half of the claim holds vacuously). -/
theorem c1_changed_checkout_performs_no_history_rotation :
    (checkout_mr changed_env refStore0 github_remote_model ("origin") 42).1 =
      .done .BranchChanged ∧
    (checkout_mr changed_env refStore0 github_remote_model ("origin") 42).2.2 = refStore0 ∧
    get_current_mr_id
      (checkout_mr changed_env refStore0 github_remote_model ("origin") 42).2.2 = none ∧
    get_previous_mr_id
      (checkout_mr changed_env refStore0 github_remote_model ("origin") 42).2.2 = none ∧
    (∀ (env : GitEnv) (refs : RefStore) (remote : RemoteModel)
       (remote_name : String) (mr_id : Int),
      (checkout_mr env refs remote remote_name mr_id).2.2 = refs) := by
  refine ⟨by decide, rfl, by decide, by decide, ?_⟩
  intro env refs remote remote_name mr_id
  rcases h₁ : remote.get_remote_req_branch mr_id with e | rbn <;>
    simp only [checkout_mr, h₁]
  rcases h₂ : remote.get_local_req_branch mr_id with e | lbn <;> simp only [h₂]
  rcases h₃ : checkout_branch env remote_name rbn lbn
      remote.has_virtual_remote_branch_names with ⟨r | e, cmds⟩ <;> simp only [h₃]

/-! ## GitLab provider-client theorems -/

/-- C6: GitLab project-id resolution attempts the direct URL-encoded
full-path lookup first; on a non-success response it runs the strictly
sequential fallback — namespace lookup, then a namespace-scoped project
listing (direct listing for a `user` namespace, name-filtered search for
a `group` namespace) — and selects the project whose `name` exactly
equals the locally derived project name; when no candidate matches, the
whole resolution fails (the search step fails with its project-not-found
error, which `query_gitlab_project_id` surfaces as its fixed failure
message). -/
theorem c6_gitlab_project_id_fallback_search (env : HttpEnv) (remote : GitLabRemote)
    (ns_buf : GitLabNamespace) (ps : List GitLabProject) (projects_url : String)
    (hdir : (env.call (remote.api_root ++ "/projects/" ++
      rustReplaceChar '/' ("%2F") remote.full_path)).error = true)
    (hns_ok : (env.call (remote.api_root ++ "/namespaces/" ++ remote.namespace')).error = false)
    (hns_body : (env.call (remote.api_root ++ "/namespaces/" ++ remote.namespace')).body =
      some (.ns ns_buf))
    (hkind : (ns_buf.kind = "user" ∧
        projects_url = remote.api_root ++ "/users/" ++ toString ns_buf.id ++ "/projects") ∨
      (ns_buf.kind = "group" ∧
        projects_url = remote.api_root ++ "/groups/" ++ toString ns_buf.id ++
          "/projects?search=" ++ remote.name))
    (hlist_ok : (env.call projects_url).error = false)
    (hlist_body : (env.call projects_url).body = some (.projects ps)) :
    (ps.find? (fun prj => prj.name == remote.name) = none →
      (search_gitlab_project_id env remote).1 = .err ("Couldn't find project") ∧
      query_gitlab_project_id env remote =
        (.err unable_to_get_project_id_msg,
         [remote.api_root ++ "/projects/" ++ rustReplaceChar '/' ("%2F") remote.full_path,
          remote.api_root ++ "/namespaces/" ++ remote.namespace', projects_url])) ∧
    (∀ project, ps.find? (fun prj => prj.name == remote.name) = some project →
      query_gitlab_project_id env remote =
        (.ok project.id,
         [remote.api_root ++ "/projects/" ++ rustReplaceChar '/' ("%2F") remote.full_path,
          remote.api_root ++ "/namespaces/" ++ remote.namespace', projects_url])) := by
  have hopt :
      (if ns_buf.kind = "user" then
        some (remote.api_root ++ "/users/" ++ toString ns_buf.id ++ "/projects")
       else if ns_buf.kind = "group" then
        some (remote.api_root ++ "/groups/" ++ toString ns_buf.id ++
              "/projects?search=" ++ remote.name)
       else none) = some projects_url := by
    rcases hkind with ⟨hk, hu⟩ | ⟨hk, hu⟩ <;> rw [hk] <;> simp [hu]
  have hsearch : ∀ r,
      ps.find? (fun prj => prj.name == remote.name) = r →
      search_gitlab_project_id env remote =
        ((match r with
          | some project => .ok project.id
          | none => .err ("Couldn't find project")),
         [remote.api_root ++ "/namespaces/" ++ remote.namespace', projects_url]) := by
    intro r hfind
    simp only [search_gitlab_project_id, query_gitlab_api, hns_ok, hns_body,
      Bool.false_eq_true, if_false, decode_namespace, hopt, hlist_ok, hlist_body,
      decode_projects, hfind]
    cases r <;> rfl
  refine ⟨fun hfind => ⟨?_, ?_⟩, fun project hfind => ?_⟩
  · rw [hsearch none hfind]
  · simp only [query_gitlab_project_id, query_gitlab_api, hdir, if_true,
      hsearch none hfind]
  · simp only [query_gitlab_project_id, query_gitlab_api, hdir, if_true,
      hsearch (some project) hfind]

/-- The GitLab remote derived from the C9 scenario origin. -/
def gl_remote_ex : GitLabRemote where
  id := ""
  domain := "gitlab.example.com"
  name := "project"
  namespace' := "group"
  full_path := "group/subgroup/project"
  origin := "git@gitlab.example.com:group/subgroup/project.git"
  api_root := "https://gitlab.example.com/api/v4"
  api_key := ""

/-- Network for the C6 witness: the direct lookup 404s, the namespace
lookup reports group 7, and the group's filtered project list contains
no entry named `project`. -/
def c6_env : HttpEnv where
  call := fun url =>
    if url = "https://gitlab.example.com/api/v4/projects/group%2Fsubgroup%2Fproject" then
      ⟨true, 404, some .other⟩
    else if url = "https://gitlab.example.com/api/v4/namespaces/group" then
      ⟨false, 200, some (.ns ⟨7, "group", "group", "group", "group"⟩)⟩
    else if url = "https://gitlab.example.com/api/v4/groups/7/projects?search=project" then
      ⟨false, 200, some (.projects [⟨10, none, "other", "other", "group/other"⟩])⟩
    else ⟨true, 500, none⟩

/-- C6 witness: with the 404 direct lookup and a group listing with no
exact name match, resolution fails after exactly the three sequential
calls. -/
theorem c6_gitlab_project_id_fallback_search_witness :
    (search_gitlab_project_id c6_env gl_remote_ex).1 = .err ("Couldn't find project") ∧
    query_gitlab_project_id c6_env gl_remote_ex =
      (.err unable_to_get_project_id_msg,
       ["https://gitlab.example.com/api/v4/projects/group%2Fsubgroup%2Fproject",
        "https://gitlab.example.com/api/v4/namespaces/group",
        "https://gitlab.example.com/api/v4/groups/7/projects?search=project"]) := by
  have h := c6_gitlab_project_id_fallback_search c6_env gl_remote_ex
    ⟨7, "group", "group", "group", "group"⟩
    [⟨10, none, "other", "other", "group/other"⟩]
    ("https://gitlab.example.com/api/v4/groups/7/projects?search=project")
    (by decide) (by decide) (by decide)
    (Or.inr ⟨rfl, by decide⟩) (by decide) (by decide)
  have h₂ := h.1 (by decide)
  exact ⟨h₂.1, by rw [h₂.2]; rfl⟩

/-- C7 counterexample: `query_gitlab_branch_name` never inspects the
HTTP status, so a 404 response does not surface as a distinct
request-not-found failure: with a 404 whose JSON body is not a merge
request the call aborts in the decode `expect`, and the outcome is
identical to that of a 500 response with the same body. -/
theorem c7_404_not_distinguished_counterexample :
    (query_gitlab_branch_name ⟨fun _ => ⟨true, 404, some .other⟩⟩
      { gl_remote_ex with id := "123" } 42).1 = .aborted ("failed to decode response") ∧
    (query_gitlab_branch_name ⟨fun _ => ⟨true, 404, some .other⟩⟩
      { gl_remote_ex with id := "123" } 42).1 =
      (query_gitlab_branch_name ⟨fun _ => ⟨true, 500, some .other⟩⟩
        { gl_remote_ex with id := "123" } 42).1 := by
  exact ⟨rfl, rfl⟩

/-- C7 (amended): `remote_branch_name` requests exactly
`/projects/<id>/merge_requests/<request_id>` and returns whatever
`source_branch` a merge-request-shaped body carries, regardless of the
HTTP status; an unreadable body surfaces as the generic
"failed to read response" error; a readable body of any other shape
aborts in the decode `expect`; and the outcome depends only on the
response body, never on the status code, so a 404 produces no distinct
request-not-found failure. -/
theorem c7_branch_name_query_ignores_status (env : HttpEnv) (remote : GitLabRemote)
    (mr_id : Int) :
    (query_gitlab_branch_name env remote mr_id).2 =
      [remote.api_root ++ "/projects/" ++ remote.id ++ "/merge_requests/" ++
       toString mr_id] ∧
    ((env.call (remote.api_root ++ "/projects/" ++ remote.id ++ "/merge_requests/" ++
        toString mr_id)).body = none →
      (query_gitlab_branch_name env remote mr_id).1 = .err ("failed to read response")) ∧
    (∀ m, (env.call (remote.api_root ++ "/projects/" ++ remote.id ++ "/merge_requests/" ++
        toString mr_id)).body = some (.mr m) →
      (query_gitlab_branch_name env remote mr_id).1 = .ok m.source_branch) ∧
    (∀ env' : HttpEnv,
      (env'.call (remote.api_root ++ "/projects/" ++ remote.id ++ "/merge_requests/" ++
        toString mr_id)).body =
      (env.call (remote.api_root ++ "/projects/" ++ remote.id ++ "/merge_requests/" ++
        toString mr_id)).body →
      (query_gitlab_branch_name env' remote mr_id).1 =
        (query_gitlab_branch_name env remote mr_id).1) := by
  refine ⟨?_, ?_, ?_, ?_⟩
  · simp only [query_gitlab_branch_name]
    rcases hb : (env.call (remote.api_root ++ "/projects/" ++ remote.id ++
        "/merge_requests/" ++ toString mr_id)).body with _ | b
    · simp [hb]
    · cases b <;> simp [hb, decode_merge_request]
  · intro h
    simp only [query_gitlab_branch_name, h]
  · intro m h
    simp only [query_gitlab_branch_name, h, decode_merge_request]
  · intro env' h
    simp only [query_gitlab_branch_name]
    rw [h]

/-- A network answering the merge-request endpoint with a decodable
merge request whose source branch is `feature-x`. -/
def c7_env : HttpEnv where
  call := fun _ =>
    ⟨false, 200, some (.mr ⟨900, 42, "Title", none, "main", "feature-x", "abc", ""⟩)⟩

/-- C7 witness: a decodable merge-request body for request 42 yields its
`source_branch`, from the computed endpoint URL. -/
theorem c7_branch_name_query_ignores_status_witness :
    (query_gitlab_branch_name c7_env { gl_remote_ex with id := "123" } 42).2 =
      ["https://gitlab.example.com/api/v4" ++ "/projects/" ++ "123" ++
       "/merge_requests/" ++ toString (42 : Int)] ∧
    (query_gitlab_branch_name c7_env { gl_remote_ex with id := "123" } 42).1 =
      .ok ("feature-x") := by
  have h := c7_branch_name_query_ignores_status c7_env
    { gl_remote_ex with id := "123" } 42
  exact ⟨h.1, h.2.2.1 ⟨900, 42, "Title", none, "main", "feature-x", "abc", ""⟩ rfl⟩

/-! ## Remote Identity Resolver theorems -/

/-- C9: for the SCP-like nested-namespace origin
`git@gitlab.example.com:group/subgroup/project.git` — and for the same
origin without the `.git` suffix and in `https://` URL form with and
without the suffix — the extractors yield namespace `group` (first path
segment), name `project` (last segment, `.git` stripped) and full path
`group/subgroup/project`. -/
theorem c9_nested_namespace_path_extraction :
    get_gitlab_project_namespace ("git@gitlab.example.com:group/subgroup/project.git") =
      some ("group") ∧
    get_gitlab_project_name ("git@gitlab.example.com:group/subgroup/project.git") =
      some ("project") ∧
    get_gitlab_project_full_path ("git@gitlab.example.com:group/subgroup/project.git") =
      some ("group/subgroup/project") ∧
    get_gitlab_project_namespace ("git@gitlab.example.com:group/subgroup/project") =
      some ("group") ∧
    get_gitlab_project_name ("git@gitlab.example.com:group/subgroup/project") =
      some ("project") ∧
    get_gitlab_project_full_path ("git@gitlab.example.com:group/subgroup/project") =
      some ("group/subgroup/project") ∧
    get_gitlab_project_namespace ("https://gitlab.example.com/group/subgroup/project.git") =
      some ("group") ∧
    get_gitlab_project_name ("https://gitlab.example.com/group/subgroup/project.git") =
      some ("project") ∧
    get_gitlab_project_full_path ("https://gitlab.example.com/group/subgroup/project.git") =
      some ("group/subgroup/project") ∧
    get_gitlab_project_namespace ("https://gitlab.example.com/group/subgroup/project") =
      some ("group") ∧
    get_gitlab_project_name ("https://gitlab.example.com/group/subgroup/project") =
      some ("project") ∧
    get_gitlab_project_full_path ("https://gitlab.example.com/group/subgroup/project") =
      some ("group/subgroup/project") := by
  decide

end GitReq
